import Mathlib

/-!
Verification of the AuditMagic inventory repository layer.

The development shallowly embeds the data model (`models.py`), the
transactional session semantics (`db.py : session_scope`) and the mutation
operations of the repository layer (`repositories.py`).  The database is a
record of lists of rows plus autoincrement counters; every repository
operation is a function from the old database to a result paired with the
committed database.  `session_scope` commits on success and rolls back on
any exception, so an operation that raises returns the original database
unchanged.

SQLite (the engine configured in `db.py`) enforces CHECK and UNIQUE
constraints per statement but not foreign keys (no `PRAGMA foreign_keys`
is issued), so the embedding checks the `check_serial_or_quantity`
constraint and the uniqueness constraints at each flush of an INSERT or
UPDATE, and performs no foreign-key checks.
-/

namespace AuditMagic

/-- `TransactionType` enum from models.py. -/
inductive TransactionType
  | ADD
  | REMOVE
  | EDIT
deriving DecidableEq, Repr

/-- Row of the `item_types` table (models.py `ItemType`).  `sub_type` and
`details` are always normalised to strings by the repository layer, so they
are plain strings here.  Timestamps are omitted: no claim mentions them. -/
structure ItemType where
  id : Nat
  name : String
  sub_type : String
  is_serialized : Bool
  details : String
deriving DecidableEq, Repr

/-- Row of the `items` table (models.py `Item`). -/
structure Item where
  id : Nat
  item_type_id : Nat
  quantity : Int
  serial_number : Option String
  location : String
  condition : String
deriving DecidableEq, Repr

/-- Row of the `transactions` table (models.py `Transaction`). -/
structure Transaction where
  id : Nat
  item_type_id : Nat
  transaction_type : TransactionType
  quantity_change : Int
  quantity_before : Int
  quantity_after : Int
  serial_number : Option String
  notes : String
deriving DecidableEq, Repr

/-- The database state: the three tables the claims are about, plus the
autoincrement counters for primary keys. -/
structure DB where
  item_types : List ItemType
  items : List Item
  transactions : List Transaction
  next_type_id : Nat
  next_item_id : Nat
  next_trans_id : Nat
deriving DecidableEq, Repr

/-- Errors raised by repository operations: `validation` models a Python
`ValueError` raised by the repository code itself (the ValidationError
and ConflictError of the spec), `storage` models a database
`IntegrityError` raised at flush time by a violated constraint (the
StorageError of the spec). -/
inductive RepoErr
  | validation (msg : String)
  | storage (msg : String)
deriving DecidableEq, Repr

/-- Python `s or None` on an optional string: `None` and `""` become
`None`, everything else is kept. -/
def strOrNone : Option String → Option String
  | none => none
  | some s => if s = "" then none else some s

/-- Python truthiness test `not s` on an optional string. -/
def optBlank : Option String → Bool
  | none => true
  | some s => s == ""

/-- Python `s or ""` on an optional string. -/
def strOrEmpty : Option String → String
  | none => ""
  | some s => s

/-- Python `s or d` on an optional string with a string default. -/
def pyStrOr (s : Option String) (d : String) : String :=
  match s with
  | none => d
  | some v => if v = "" then d else v

/-- The `check_serial_or_quantity` CHECK constraint from models.py
`Item.__table_args__`:
`(serial_number IS NULL AND quantity > 0) OR (serial_number IS NOT NULL AND quantity = 1)`. -/
def checkSerialOrQuantity (it : Item) : Bool :=
  match it.serial_number with
  | none => decide (0 < it.quantity)
  | some _ => decide (it.quantity = 1)

/-- Whether a (non-null) serial number collides with one already present
among `others` (the UNIQUE constraint on `items.serial_number`). -/
def serialConflict (others : List Item) (sn : Option String) : Bool :=
  match sn with
  | none => false
  | some s => others.any (fun j => j.serial_number == some s)

/-- Whether a (name, sub_type) pair collides with one already present
among `others` (the `uq_item_type_name_subtype` UNIQUE constraint). -/
def nameSubtypeConflict (others : List ItemType) (name sub_type : String) : Bool :=
  others.any (fun t => t.name == name && t.sub_type == sub_type)

/-- Flush of an INSERT into `items`: SQLite checks the row CHECK
constraint and serial uniqueness; on success the row is appended and the
autoincrement counter advances. -/
def flushInsertItem (db : DB) (it : Item) : Except RepoErr DB :=
  if ¬ checkSerialOrQuantity it then
    .error (.storage "CHECK constraint failed: check_serial_or_quantity")
  else if serialConflict db.items it.serial_number then
    .error (.storage "UNIQUE constraint failed: items.serial_number")
  else
    .ok { db with items := db.items ++ [it], next_item_id := db.next_item_id + 1 }

/-- Flush of an UPDATE of the `items` row with `it.id`: SQLite re-checks
the CHECK constraint on the updated row and serial uniqueness against the
other rows. -/
def flushUpdateItem (db : DB) (it : Item) : Except RepoErr DB :=
  if ¬ checkSerialOrQuantity it then
    .error (.storage "CHECK constraint failed: check_serial_or_quantity")
  else if serialConflict (db.items.filter (fun j => j.id != it.id)) it.serial_number then
    .error (.storage "UNIQUE constraint failed: items.serial_number")
  else
    .ok { db with items := db.items.map (fun j => if j.id = it.id then it else j) }

/-- Flush of an INSERT into `transactions`: no enforced constraints
(foreign keys are off in SQLite by default). -/
def flushInsertTransaction (db : DB) (t : Transaction) : DB :=
  { db with transactions := db.transactions ++ [t], next_trans_id := db.next_trans_id + 1 }

/-- Flush of an INSERT into `item_types`: SQLite checks the
(name, sub_type) uniqueness constraint. -/
def flushInsertItemType (db : DB) (t : ItemType) : Except RepoErr DB :=
  if nameSubtypeConflict db.item_types t.name t.sub_type then
    .error (.storage "UNIQUE constraint failed: item_types.name, item_types.sub_type")
  else
    .ok { db with item_types := db.item_types ++ [t], next_type_id := db.next_type_id + 1 }

/-- Flush of an UPDATE of the `item_types` row with `t.id`. -/
def flushUpdateItemType (db : DB) (t : ItemType) : Except RepoErr DB :=
  if nameSubtypeConflict (db.item_types.filter (fun u => u.id != t.id)) t.name t.sub_type then
    .error (.storage "UNIQUE constraint failed: item_types.name, item_types.sub_type")
  else
    .ok { db with item_types := db.item_types.map (fun u => if u.id = t.id then t else u) }

/-- `session_scope` from db.py: on success the tentative state is
committed; on an exception the session is rolled back, leaving the
original database, and the exception propagates. -/
def runSession {α : Type} (db : DB) : Except RepoErr (α × DB) → Except RepoErr α × DB
  | .error e => (.error e, db)
  | .ok (a, db1) => (.ok a, db1)

/-- English value of the `transaction.notes.initial` translation key from
ui_entities/translations.py ("Initial inventory"); the actual string is
locale-dependent, but the claims only depend on it being this one fixed
default. -/
def trInitial : String := "Initial inventory"

/-- `ItemType.total_quantity` from models.py: the aggregate quantity of a
type, the sum of `quantity` over all Items of the type. -/
def totalQuantity (db : DB) (type_id : Nat) : Int :=
  ((db.items.filter (fun i => i.item_type_id == type_id)).map Item.quantity).sum

namespace ItemTypeRepository

/-- The serialization-mode word used in the conflict message of
`get_or_create`. -/
def serializedState (b : Bool) : String :=
  if b then "serialized" else "non-serialized"

/-- The message of the ValueError raised by `get_or_create` on a
serialization-mode conflict (repositories.py lines 87-91). -/
def conflictMsg (name sub_type : String) (existing requested : Bool) : String :=
  "ItemType \x27" ++ name ++ "\x27 (sub_type=\x27" ++ sub_type ++ "\x27) already exists as " ++
    serializedState existing ++ ". Cannot use it as " ++ serializedState requested ++
    ". Choose a different name/sub-type or keep the same serialization mode."

/-- `ItemTypeRepository.get_or_create` (repositories.py lines 50-104). -/
def get_or_create (name : String) (sub_type : String) (is_serialized : Bool)
    (details : String) (db : DB) : Except RepoErr ItemType × DB :=
  runSession db <|
    match db.item_types.find? (fun t => t.name == name && t.sub_type == sub_type) with
    | some t =>
      if t.is_serialized ≠ is_serialized then
        .error (.validation (conflictMsg name sub_type t.is_serialized is_serialized))
      else
        .ok (t, db)
    | none =>
      let t : ItemType :=
        { id := db.next_type_id
          name := name
          sub_type := sub_type
          is_serialized := is_serialized
          details := details }
      match flushInsertItemType db t with
      | .error e => .error e
      | .ok db1 => .ok (t, db1)

/-- The message of the ValueError raised by `update` when flipping
`is_serialized` while items exist (repositories.py lines 253-256). -/
def cannotFlipMsg (name : String) (item_count : Nat) : String :=
  "Cannot change is_serialized for \x27" ++ name ++ "\x27: " ++ toString item_count ++
    " item(s) already exist. Delete all items first."

/-- `ItemTypeRepository.update` (repositories.py lines 221-263).  Field
changes are applied in source order; the `is_serialized` guard counts the
items of the type and raises before any commit, so the rollback in
`session_scope` discards the earlier in-session field changes. -/
def update (type_id : Nat) (name sub_type : Option String) (is_serialized : Option Bool)
    (details : Option String) (db : DB) : Except RepoErr (Option ItemType) × DB :=
  runSession db <|
    match db.item_types.find? (fun t => t.id == type_id) with
    | none => .ok (none, db)
    | some t0 =>
      let t1 := match name with
        | some n => { t0 with name := n }
        | none => t0
      let t2 := match sub_type with
        | some s => { t1 with sub_type := s }
        | none => t1
      let step : Except RepoErr ItemType :=
        match is_serialized with
        | none => .ok t2
        | some b =>
          if t2.is_serialized ≠ b then
            let item_count := (db.items.filter (fun i => i.item_type_id == type_id)).length
            if item_count > 0 then
              .error (.validation (cannotFlipMsg t2.name item_count))
            else
              .ok { t2 with is_serialized := b }
          else
            .ok t2
      match step with
      | .error e => .error e
      | .ok t3 =>
        let t4 := match details with
          | some d => { t3 with details := d }
          | none => t3
        match flushUpdateItemType db t4 with
        | .error e => .error e
        | .ok db1 => .ok (some t4, db1)

end ItemTypeRepository

namespace ItemRepository

/-- `ItemRepository.create` (repositories.py lines 381-453): validates the
serialization mode of the type, inserts the item, then inserts the initial ADD
transaction (when quantity > 0) with before 0 and after the row quantity. -/
def create (item_type_id : Nat) (quantity : Int)
    (serial_number location condition transaction_notes : Option String)
    (db : DB) : Except RepoErr Item × DB :=
  runSession db <|
    match db.item_types.find? (fun t => t.id == item_type_id) with
    | none => .error (.validation ("ItemType with id " ++ toString item_type_id ++ " not found"))
    | some item_type =>
      if item_type.is_serialized ∧ optBlank serial_number then
        .error (.validation "Serial number required for serialized items")
      else if item_type.is_serialized ∧ quantity ≠ 1 then
        .error (.validation "Quantity must be 1 for serialized items")
      else if ¬ item_type.is_serialized ∧ ¬ optBlank serial_number then
        .error (.validation "Serial number not allowed for non-serialized items")
      else if ¬ item_type.is_serialized ∧ quantity < 1 then
        .error (.validation "Quantity must be at least 1")
      else
        let item : Item :=
          { id := db.next_item_id
            item_type_id := item_type_id
            quantity := quantity
            serial_number := strOrNone serial_number
            location := strOrEmpty location
            condition := strOrEmpty condition }
        match flushInsertItem db item with
        | .error e => .error e
        | .ok db1 =>
          let db2 :=
            if 0 < quantity then
              flushInsertTransaction db1
                { id := db1.next_trans_id
                  item_type_id := item_type_id
                  transaction_type := .ADD
                  quantity_change := quantity
                  quantity_before := 0
                  quantity_after := quantity
                  serial_number := strOrNone serial_number
                  notes := pyStrOr transaction_notes trInitial }
            else db1
          .ok (item, db2)

/-- `ItemRepository.create_serialized` (repositories.py lines 455-540):
counts the existing items of the type (the group size N), inserts the new
quantity-1 item and records an ADD transaction N → N+1; the very first
item of a type always gets the default initial-inventory note. -/
def create_serialized (item_type_id : Nat) (serial_number : String)
    (location condition notes : String) (db : DB) : Except RepoErr Item × DB :=
  runSession db <|
    if serial_number = "" then
      .error (.validation "Serial number is required for serialized items")
    else
      match db.item_types.find? (fun t => t.id == item_type_id) with
      | none => .error (.validation ("ItemType with id " ++ toString item_type_id ++ " not found"))
      | some item_type =>
        if ¬ item_type.is_serialized then
          .error (.validation ("ItemType \x27" ++ item_type.name ++
            "\x27 is not serialized; use create() instead"))
        else
          let existing_count := (db.items.filter (fun i => i.item_type_id == item_type_id)).length
          let item : Item :=
            { id := db.next_item_id
              item_type_id := item_type_id
              quantity := 1
              serial_number := some serial_number
              location := location
              condition := condition }
          match flushInsertItem db item with
          | .error e => .error e
          | .ok db1 =>
            let transaction_notes := if existing_count = 0 then trInitial else notes
            let db2 := flushInsertTransaction db1
              { id := db1.next_trans_id
                item_type_id := item_type_id
                transaction_type := .ADD
                quantity_change := 1
                quantity_before := (existing_count : Int)
                quantity_after := (existing_count : Int) + 1
                serial_number := some serial_number
                notes := transaction_notes }
            .ok (item, db2)

/-- `ItemRepository.update` (repositories.py lines 567-602): updates
serial number / location / condition of a row (quantity untouched). -/
def update (item_id : Nat) (serial_number location condition : Option String)
    (db : DB) : Except RepoErr (Option Item) × DB :=
  runSession db <|
    match db.items.find? (fun i => i.id == item_id) with
    | none => .ok (none, db)
    | some item0 =>
      let item1 := match serial_number with
        | some s => { item0 with serial_number := if s = "" then none else some s }
        | none => item0
      let item2 := match location with
        | some l => { item1 with location := l }
        | none => item1
      let item3 := match condition with
        | some c => { item2 with condition := c }
        | none => item2
      match flushUpdateItem db item3 with
      | .error e => .error e
      | .ok db1 => .ok (some item3, db1)

/-- The updated row produced by `edit_item` for a found item. -/
def editedRow (item0 : Item) (item_type_id : Nat) (quantity : Int)
    (serial_number location condition : String) : Item :=
  { item0 with
    item_type_id := item_type_id
    quantity := quantity
    serial_number := if serial_number = "" then none else some serial_number
    location := location
    condition := condition }

/-- `ItemRepository.edit_item` (repositories.py lines 604-663): applies
all field changes with no domain validation and records a single EDIT
transaction whose quantity_change is the absolute value of the delta and
whose notes are the edit reason. -/
def edit_item (item_id item_type_id : Nat) (quantity : Int)
    (serial_number location condition edit_reason : String)
    (db : DB) : Except RepoErr (Option Item) × DB :=
  runSession db <|
    match db.items.find? (fun i => i.id == item_id) with
    | none => .ok (none, db)
    | some item0 =>
      let quantity_before := item0.quantity
      let item1 := editedRow item0 item_type_id quantity serial_number location condition
      let quantity_diff := quantity - quantity_before
      match flushUpdateItem db item1 with
      | .error e => .error e
      | .ok db1 =>
        let db2 := flushInsertTransaction db1
          { id := db1.next_trans_id
            item_type_id := item_type_id
            transaction_type := .EDIT
            quantity_change := |quantity_diff|
            quantity_before := quantity_before
            quantity_after := quantity
            serial_number := none
            notes := edit_reason }
        .ok (some item1, db2)

/-- `ItemRepository.delete` (repositories.py lines 665-682): removes the
row; writes no transaction. -/
def delete (item_id : Nat) (db : DB) : Except RepoErr Bool × DB :=
  runSession db <|
    match db.items.find? (fun i => i.id == item_id) with
    | none => .ok (false, db)
    | some _ => .ok (true, { db with items := db.items.filter (fun i => i.id != item_id) })

/-- `ItemRepository.add_quantity` (repositories.py lines 684-724). -/
def add_quantity (item_id : Nat) (quantity : Int) (notes : Option String)
    (db : DB) : Except RepoErr (Option Item) × DB :=
  runSession db <|
    if quantity ≤ 0 then
      .error (.validation "Quantity to add must be positive")
    else
      match db.items.find? (fun i => i.id == item_id) with
      | none => .ok (none, db)
      | some item0 =>
        let quantity_before := item0.quantity
        let item1 := { item0 with quantity := quantity_before + quantity }
        match flushUpdateItem db item1 with
        | .error e => .error e
        | .ok db1 =>
          let db2 := flushInsertTransaction db1
            { id := db1.next_trans_id
              item_type_id := item0.item_type_id
              transaction_type := .ADD
              quantity_change := quantity
              quantity_before := quantity_before
              quantity_after := item1.quantity
              serial_number := none
              notes := pyStrOr notes "" }
          .ok (some item1, db2)

/-- The message of the ValueError raised by `remove_quantity` when the
request exceeds the on-hand quantity (repositories.py lines 758-760). -/
def removeMsg (quantity available : Int) : String :=
  "Cannot remove " ++ toString quantity ++ " items. Only " ++ toString available ++ " available."

/-- `ItemRepository.remove_quantity` (repositories.py lines 726-779). -/
def remove_quantity (item_id : Nat) (quantity : Int) (notes : Option String)
    (db : DB) : Except RepoErr (Option Item) × DB :=
  runSession db <|
    if quantity ≤ 0 then
      .error (.validation "Quantity to remove must be positive")
    else
      match db.items.find? (fun i => i.id == item_id) with
      | none => .ok (none, db)
      | some item0 =>
        if item0.quantity < quantity then
          .error (.validation (removeMsg quantity item0.quantity))
        else
          let quantity_before := item0.quantity
          let item1 := { item0 with quantity := quantity_before - quantity }
          match flushUpdateItem db item1 with
          | .error e => .error e
          | .ok db1 =>
            let db2 := flushInsertTransaction db1
              { id := db1.next_trans_id
                item_type_id := item0.item_type_id
                transaction_type := .REMOVE
                quantity_change := quantity
                quantity_before := quantity_before
                quantity_after := item1.quantity
                serial_number := none
                notes := pyStrOr notes "" }
            .ok (some item1, db2)

/-- Whether the serial number of an item is among the given list (the
`Item.serial_number.in_(serial_numbers)` filter). -/
def serialMatches (serial_numbers : List String) (i : Item) : Bool :=
  match i.serial_number with
  | some s => serial_numbers.contains s
  | none => false

/-- One step of the audit loop of `delete_by_serial_numbers`: insert the
REMOVE transaction for one matched item. -/
def removeTransFor (notes : String) (db : DB) (item : Item) : DB :=
  flushInsertTransaction db
    { id := db.next_trans_id
      item_type_id := item.item_type_id
      transaction_type := .REMOVE
      quantity_change := 1
      quantity_before := 1
      quantity_after := 0
      serial_number := item.serial_number
      notes := notes }

/-- The audit phase of `delete_by_serial_numbers` (repositories.py lines
1007-1021): a REMOVE transaction per matched item, flushed while all the
item rows are still present. -/
def auditStep (serial_numbers : List String) (notes : String) (db : DB) : DB :=
  (db.items.filter (serialMatches serial_numbers)).foldl (removeTransFor notes) db

/-- The delete phase of `delete_by_serial_numbers` (repositories.py lines
1023-1027): the set-based `DELETE FROM items WHERE serial_number IN (...)`. -/
def deleteStep (serial_numbers : List String) (db : DB) : DB :=
  { db with items := db.items.filter (fun i => ¬ serialMatches serial_numbers i) }

/-- `ItemRepository.delete_by_serial_numbers` (repositories.py lines
983-1030): audit first, then the set-based delete; returns the number of
matched (deleted) items, 0 immediately for an empty input list. -/
def delete_by_serial_numbers (serial_numbers : List String) (notes : String)
    (db : DB) : Except RepoErr Nat × DB :=
  runSession db <|
    if serial_numbers.isEmpty then
      .ok (0, db)
    else
      let count := (db.items.filter (serialMatches serial_numbers)).length
      .ok (count, deleteStep serial_numbers (auditStep serial_numbers notes db))

end ItemRepository

/-- The bulk/serialized mode invariant of a single Item row, as stated in
the spec: bulk (no serial, positive quantity) or serialized (a serial and
quantity exactly 1). -/
def ItemModeOk (it : Item) : Prop :=
  (it.serial_number = none ∧ 0 < it.quantity) ∨ (it.serial_number ≠ none ∧ it.quantity = 1)

instance (it : Item) : Decidable (ItemModeOk it) := by
  unfold ItemModeOk
  infer_instance

/-- The invariant over the whole database: every Item row is in exactly
one of the two modes. -/
def ItemInvariant (db : DB) : Prop :=
  ∀ it ∈ db.items, ItemModeOk it

instance (db : DB) : Decidable (ItemInvariant db) := by
  unfold ItemInvariant
  infer_instance

/-- A sample database used to instantiate theorems on concrete inputs: a
serialized type (id 1) with one unit and a bulk type (id 2) with two rows
of quantities 5 and 3. -/
def sampleDb : DB :=
  { item_types :=
      [{ id := 1, name := "Laptop", sub_type := "", is_serialized := true, details := "" },
       { id := 2, name := "Desk", sub_type := "", is_serialized := false, details := "" }]
    items :=
      [{ id := 1, item_type_id := 2, quantity := 5, serial_number := none, location := "", condition := "" },
       { id := 2, item_type_id := 2, quantity := 3, serial_number := none, location := "", condition := "" },
       { id := 3, item_type_id := 1, quantity := 1, serial_number := some "SN-001", location := "", condition := "" }]
    transactions := []
    next_type_id := 3
    next_item_id := 4
    next_trans_id := 1 }

/-- Specification-side closed form used for C8 (refinement comparison
with the audit loop of delete_by_serial_numbers): one REMOVE audit row
per matched item in order, each with quantity_change 1, quantity_before
1, quantity_after 0, the serial_number of the item and the caller notes,
with consecutive ids starting at the given counter value. -/
def expectedRemoveTransactions (notes : String) : List Item → Nat → List Transaction
  | [], _ => []
  | i :: rest, start =>
    { id := start
      item_type_id := i.item_type_id
      transaction_type := .REMOVE
      quantity_change := 1
      quantity_before := 1
      quantity_after := 0
      serial_number := i.serial_number
      notes := notes } :: expectedRemoveTransactions notes rest (start + 1)

theorem checkSerialOrQuantity_iff (it : Item) :
    checkSerialOrQuantity it = true ↔ ItemModeOk it := by
  unfold checkSerialOrQuantity ItemModeOk
  cases h : it.serial_number <;> simp [h]

theorem itemInvariant_of_items_eq {db1 db2 : DB} (h : db2.items = db1.items)
    (h1 : ItemInvariant db1) : ItemInvariant db2 := by
  unfold ItemInvariant at h1 ⊢
  rw [h]
  exact h1

theorem flushInsertTransaction_items (db : DB) (t : Transaction) :
    (flushInsertTransaction db t).items = db.items := rfl

theorem flushInsertItem_inv {db : DB} {it : Item} {db1 : DB}
    (h : ItemInvariant db) (hf : flushInsertItem db it = .ok db1) : ItemInvariant db1 := by
  unfold flushInsertItem at hf
  split at hf
  · cases hf
  · split at hf
    · cases hf
    · rename_i hc _
      injection hf with hf
      subst hf
      intro x hx
      rcases List.mem_append.mp hx with hx | hx
      · exact h x hx
      · rw [List.mem_singleton] at hx
        subst hx
        exact (checkSerialOrQuantity_iff _).mp (not_not.mp hc)

theorem flushUpdateItem_inv {db : DB} {it : Item} {db1 : DB}
    (h : ItemInvariant db) (hf : flushUpdateItem db it = .ok db1) : ItemInvariant db1 := by
  unfold flushUpdateItem at hf
  split at hf
  · cases hf
  · split at hf
    · cases hf
    · rename_i hc _
      injection hf with hf
      subst hf
      intro x hx
      rcases List.mem_map.mp hx with ⟨y, hy, hxy⟩
      by_cases hid : y.id = it.id
      · rw [if_pos hid] at hxy
        subst hxy
        exact (checkSerialOrQuantity_iff _).mp (not_not.mp hc)
      · rw [if_neg hid] at hxy
        subst hxy
        exact h y hy

theorem create_pres_inv (item_type_id : Nat) (quantity : Int)
    (sn loc cond tn : Option String) {db : DB} (h : ItemInvariant db) :
    ItemInvariant (ItemRepository.create item_type_id quantity sn loc cond tn db).2 := by
  unfold ItemRepository.create
  dsimp only
  repeat' split
  all_goals first
    | exact h
    | (rename flushInsertItem _ _ = _ => hf
       first
       | exact itemInvariant_of_items_eq (flushInsertTransaction_items _ _)
           (flushInsertItem_inv h hf)
       | exact flushInsertItem_inv h hf)

theorem create_serialized_pres_inv (item_type_id : Nat)
    (sn loc cond notes : String) {db : DB} (h : ItemInvariant db) :
    ItemInvariant (ItemRepository.create_serialized item_type_id sn loc cond notes db).2 := by
  unfold ItemRepository.create_serialized
  dsimp only
  repeat' split
  all_goals first
    | exact h
    | (rename flushInsertItem _ _ = _ => hf
       exact itemInvariant_of_items_eq (flushInsertTransaction_items _ _)
         (flushInsertItem_inv h hf))

theorem update_pres_inv (item_id : Nat) (sn loc cond : Option String)
    {db : DB} (h : ItemInvariant db) :
    ItemInvariant (ItemRepository.update item_id sn loc cond db).2 := by
  unfold ItemRepository.update
  dsimp only
  repeat' split
  all_goals first
    | exact h
    | (rename flushUpdateItem _ _ = _ => hf
       exact flushUpdateItem_inv h hf)

theorem edit_item_pres_inv (item_id item_type_id : Nat) (quantity : Int)
    (sn loc cond reason : String) {db : DB} (h : ItemInvariant db) :
    ItemInvariant (ItemRepository.edit_item item_id item_type_id quantity sn loc cond reason db).2 := by
  unfold ItemRepository.edit_item
  dsimp only
  repeat' split
  all_goals first
    | exact h
    | (rename flushUpdateItem _ _ = _ => hf
       exact itemInvariant_of_items_eq (flushInsertTransaction_items _ _)
         (flushUpdateItem_inv h hf))

theorem add_quantity_pres_inv (item_id : Nat) (quantity : Int) (notes : Option String)
    {db : DB} (h : ItemInvariant db) :
    ItemInvariant (ItemRepository.add_quantity item_id quantity notes db).2 := by
  unfold ItemRepository.add_quantity
  dsimp only
  repeat' split
  all_goals first
    | exact h
    | (rename flushUpdateItem _ _ = _ => hf
       exact itemInvariant_of_items_eq (flushInsertTransaction_items _ _)
         (flushUpdateItem_inv h hf))

theorem remove_quantity_pres_inv (item_id : Nat) (quantity : Int) (notes : Option String)
    {db : DB} (h : ItemInvariant db) :
    ItemInvariant (ItemRepository.remove_quantity item_id quantity notes db).2 := by
  unfold ItemRepository.remove_quantity
  dsimp only
  repeat' split
  all_goals first
    | exact h
    | (rename flushUpdateItem _ _ = _ => hf
       exact itemInvariant_of_items_eq (flushInsertTransaction_items _ _)
         (flushUpdateItem_inv h hf))

theorem delete_pres_inv (item_id : Nat) {db : DB} (h : ItemInvariant db) :
    ItemInvariant (ItemRepository.delete item_id db).2 := by
  unfold ItemRepository.delete
  repeat' split
  all_goals first
    | exact h
    | (intro x hx
       exact h x (List.mem_of_mem_filter hx))

theorem foldl_removeTransFor_items (notes : String) (l : List Item) (db : DB) :
    (l.foldl (ItemRepository.removeTransFor notes) db).items = db.items := by
  induction l generalizing db with
  | nil => rfl
  | cons i l ih => rw [List.foldl_cons, ih]; rfl

theorem delete_by_serial_numbers_pres_inv (serial_numbers : List String) (notes : String)
    {db : DB} (h : ItemInvariant db) :
    ItemInvariant (ItemRepository.delete_by_serial_numbers serial_numbers notes db).2 := by
  unfold ItemRepository.delete_by_serial_numbers
  dsimp only
  split
  · exact h
  · intro x hx
    simp only [ItemRepository.deleteStep] at hx
    have hx2 := List.mem_of_mem_filter hx
    rw [ItemRepository.auditStep, foldl_removeTransFor_items] at hx2
    exact h x hx2

/-- C1: for every Item row, (serial_number is null AND quantity > 0) OR
(serial_number is non-null AND quantity == 1) holds after every mutation
operation of the Item repository layer (create, create_serialized, update,
edit_item, add_quantity, remove_quantity, delete,
delete_by_serial_numbers), starting from any committed state in which it
holds: validation plus the storage-level CHECK constraint (with rollback
on failure) preserve the invariant on every exit path. -/
theorem item_mode_invariant_preserved :
    (∀ ti q sn loc cond tn db, ItemInvariant db →
       ItemInvariant (ItemRepository.create ti q sn loc cond tn db).2) ∧
    (∀ ti sn loc cond notes db, ItemInvariant db →
       ItemInvariant (ItemRepository.create_serialized ti sn loc cond notes db).2) ∧
    (∀ iid sn loc cond db, ItemInvariant db →
       ItemInvariant (ItemRepository.update iid sn loc cond db).2) ∧
    (∀ iid ti q sn loc cond reason db, ItemInvariant db →
       ItemInvariant (ItemRepository.edit_item iid ti q sn loc cond reason db).2) ∧
    (∀ iid q notes db, ItemInvariant db →
       ItemInvariant (ItemRepository.add_quantity iid q notes db).2) ∧
    (∀ iid q notes db, ItemInvariant db →
       ItemInvariant (ItemRepository.remove_quantity iid q notes db).2) ∧
    (∀ iid db, ItemInvariant db → ItemInvariant (ItemRepository.delete iid db).2) ∧
    (∀ sns notes db, ItemInvariant db →
       ItemInvariant (ItemRepository.delete_by_serial_numbers sns notes db).2) :=
  ⟨fun _ _ _ _ _ _ _ h => create_pres_inv _ _ _ _ _ _ h,
   fun _ _ _ _ _ _ h => create_serialized_pres_inv _ _ _ _ _ h,
   fun _ _ _ _ _ h => update_pres_inv _ _ _ _ h,
   fun _ _ _ _ _ _ _ _ h => edit_item_pres_inv _ _ _ _ _ _ _ h,
   fun _ _ _ _ h => add_quantity_pres_inv _ _ _ h,
   fun _ _ _ _ h => remove_quantity_pres_inv _ _ _ h,
   fun _ _ h => delete_pres_inv _ h,
   fun _ _ _ h => delete_by_serial_numbers_pres_inv _ _ h⟩

/-- Witness for C1: all eight preservation statements instantiated on the
sample database (which satisfies the invariant). -/
theorem item_mode_invariant_preserved_witness :
    ItemInvariant sampleDb ∧
    ItemInvariant (ItemRepository.create 2 5 none none none none sampleDb).2 ∧
    ItemInvariant (ItemRepository.create_serialized 1 "SN-002" "" "" "" sampleDb).2 ∧
    ItemInvariant (ItemRepository.update 1 (some "SN-009") none none sampleDb).2 ∧
    ItemInvariant (ItemRepository.edit_item 1 1 0 "" "" "" "r" sampleDb).2 ∧
    ItemInvariant (ItemRepository.add_quantity 1 2 none sampleDb).2 ∧
    ItemInvariant (ItemRepository.remove_quantity 1 10 none sampleDb).2 ∧
    ItemInvariant (ItemRepository.delete 3 sampleDb).2 ∧
    ItemInvariant (ItemRepository.delete_by_serial_numbers ["SN-001"] "gone" sampleDb).2 :=
  ⟨by decide,
   item_mode_invariant_preserved.1 2 5 none none none none sampleDb (by decide),
   item_mode_invariant_preserved.2.1 1 "SN-002" "" "" "" sampleDb (by decide),
   item_mode_invariant_preserved.2.2.1 1 (some "SN-009") none none sampleDb (by decide),
   item_mode_invariant_preserved.2.2.2.1 1 1 0 "" "" "" "r" sampleDb (by decide),
   item_mode_invariant_preserved.2.2.2.2.1 1 2 none sampleDb (by decide),
   item_mode_invariant_preserved.2.2.2.2.2.1 1 10 none sampleDb (by decide),
   item_mode_invariant_preserved.2.2.2.2.2.2.1 3 sampleDb (by decide),
   item_mode_invariant_preserved.2.2.2.2.2.2.2 ["SN-001"] "gone" sampleDb (by decide)⟩

/-- C2: if an ItemType with the given (name, sub_type) already exists and
its is_serialized differs from the requested value, get_or_create fails
with a conflict ValueError whose message names the existing mode
(serialized/non-serialized) and leaves the database unchanged (no new
ItemType row is created); if it exists with a matching is_serialized, the
existing type is returned and the database is unchanged. -/
theorem get_or_create_conflict_guard (name sub_type : String) (is_serialized : Bool)
    (details : String) (db : DB) (t : ItemType)
    (hfind : db.item_types.find? (fun u => u.name == name && u.sub_type == sub_type) = some t) :
    (t.is_serialized ≠ is_serialized →
       ItemTypeRepository.get_or_create name sub_type is_serialized details db
         = (.error (.validation
             (ItemTypeRepository.conflictMsg name sub_type t.is_serialized is_serialized)), db)
       ∧ ItemTypeRepository.conflictMsg name sub_type t.is_serialized is_serialized
           = ("ItemType \x27" ++ name ++ "\x27 (sub_type=\x27" ++ sub_type ++
               "\x27) already exists as ")
             ++ ItemTypeRepository.serializedState t.is_serialized
             ++ (". Cannot use it as " ++ ItemTypeRepository.serializedState is_serialized ++
                 ". Choose a different name/sub-type or keep the same serialization mode.")) ∧
    (t.is_serialized = is_serialized →
       ItemTypeRepository.get_or_create name sub_type is_serialized details db = (.ok t, db)) := by
  unfold ItemTypeRepository.get_or_create
  rw [hfind]
  dsimp only
  constructor
  · intro hne
    rw [if_pos hne]
    refine ⟨rfl, ?_⟩
    unfold ItemTypeRepository.conflictMsg
    simp only [String.append_assoc]
  · intro he
    rw [if_neg (by simp [he])]
    rfl

/-- Witness for C2 on the sample database: requesting the serialized type
"Laptop" as non-serialized raises the conflict error, the database is
unchanged, and the message contains the word "serialized" for the
existing mode. -/
theorem get_or_create_conflict_guard_witness :
    (ItemTypeRepository.get_or_create "Laptop" "" false "" sampleDb
       = (.error (.validation (ItemTypeRepository.conflictMsg "Laptop" "" true false)), sampleDb)
     ∧ ItemTypeRepository.conflictMsg "Laptop" "" true false
         = ("ItemType \x27" ++ "Laptop" ++ "\x27 (sub_type=\x27" ++ "" ++
             "\x27) already exists as ")
           ++ ItemTypeRepository.serializedState true
           ++ (". Cannot use it as " ++ ItemTypeRepository.serializedState false ++
               ". Choose a different name/sub-type or keep the same serialization mode.")) :=
  (get_or_create_conflict_guard "Laptop" "" false "" sampleDb
    { id := 1, name := "Laptop", sub_type := "", is_serialized := true, details := "" }
    (by decide)).1 (by decide)

/-- C3: for an ItemType that has at least one Item, calling
ItemTypeRepository.update with a different is_serialized value raises a
ValidationError, and the committed database is entirely unchanged (the
rollback in session_scope discards any in-session field changes). -/
theorem update_serialized_flip_rejected (type_id : Nat) (name sub_type : Option String)
    (b : Bool) (details : Option String) (db : DB) (t : ItemType) (it : Item)
    (hfind : db.item_types.find? (fun u => u.id == type_id) = some t)
    (hflip : t.is_serialized ≠ b)
    (hit : it ∈ db.items) (hty : it.item_type_id = type_id) :
    ItemTypeRepository.update type_id name sub_type (some b) details db
      = (.error (.validation (ItemTypeRepository.cannotFlipMsg (name.getD t.name)
          (db.items.filter (fun i => i.item_type_id == type_id)).length)), db) := by
  have hpos : 0 < (db.items.filter (fun i => i.item_type_id == type_id)).length :=
    List.length_pos_of_mem (List.mem_filter.mpr ⟨hit, by simp [hty]⟩)
  unfold ItemTypeRepository.update
  rw [hfind]
  cases name <;> cases sub_type <;>
    · dsimp only
      rw [if_pos hflip, if_pos hpos]
      rfl

/-- Witness for C3 on the sample database: flipping is_serialized of the
"Laptop" type (which owns one item) fails and leaves the database
unchanged. -/
theorem update_serialized_flip_rejected_witness :
    ItemTypeRepository.update 1 none none (some false) none sampleDb
      = (.error (.validation (ItemTypeRepository.cannotFlipMsg "Laptop"
          (sampleDb.items.filter (fun i => i.item_type_id == 1)).length)), sampleDb) :=
  update_serialized_flip_rejected 1 none none false none sampleDb
    { id := 1, name := "Laptop", sub_type := "", is_serialized := true, details := "" }
    { id := 3, item_type_id := 1, quantity := 1, serial_number := some "SN-001",
      location := "", condition := "" }
    (by decide) (by decide) (by decide) (by decide)

/-- C6: remove_quantity raises a ValidationError when the quantity
argument is not strictly positive, and when the requested removal exceeds
the on-hand quantity of the Item it raises a ValidationError whose message
names the available amount; in both failure cases the committed database
is unchanged (no quantity change, no Transaction row). -/
theorem remove_quantity_validation (item_id : Nat) (quantity : Int)
    (notes : Option String) (db : DB) :
    (quantity ≤ 0 →
       ItemRepository.remove_quantity item_id quantity notes db
         = (.error (.validation "Quantity to remove must be positive"), db)) ∧
    (∀ item0, db.items.find? (fun i => i.id == item_id) = some item0 →
       0 < quantity → item0.quantity < quantity →
       ItemRepository.remove_quantity item_id quantity notes db
         = (.error (.validation (ItemRepository.removeMsg quantity item0.quantity)), db)
       ∧ ItemRepository.removeMsg quantity item0.quantity
           = ("Cannot remove " ++ toString quantity ++ " items. Only ")
             ++ toString item0.quantity ++ " available.") := by
  constructor
  · intro hq
    unfold ItemRepository.remove_quantity
    rw [if_pos hq]
    rfl
  · intro item0 hfind hq hlt
    unfold ItemRepository.remove_quantity
    rw [if_neg (not_le.mpr hq), hfind]
    dsimp only
    rw [if_pos hlt]
    exact ⟨rfl, rfl⟩

/-- Witness for C6 on the sample database: removing -2 fails the
positivity check, and removing 10 from the quantity-5 row fails naming
the 5 available; the database is unchanged both times. -/
theorem remove_quantity_validation_witness :
    (ItemRepository.remove_quantity 1 (-2) none sampleDb
       = (.error (.validation "Quantity to remove must be positive"), sampleDb)) ∧
    (ItemRepository.remove_quantity 1 10 none sampleDb
       = (.error (.validation (ItemRepository.removeMsg 10 5)), sampleDb)
     ∧ ItemRepository.removeMsg 10 5
         = ("Cannot remove " ++ toString (10 : Int) ++ " items. Only ")
           ++ toString (5 : Int) ++ " available.") :=
  ⟨(remove_quantity_validation 1 (-2) none sampleDb).1 (by decide),
   (remove_quantity_validation 1 10 none sampleDb).2
     { id := 1, item_type_id := 2, quantity := 5, serial_number := none,
       location := "", condition := "" }
     (by decide) (by decide) (by decide)⟩

theorem nameSubtypeConflict_of_find_none {l : List ItemType} {name sub_type : String}
    (h : l.find? (fun u => u.name == name && u.sub_type == sub_type) = none) :
    nameSubtypeConflict l name sub_type = false := by
  unfold nameSubtypeConflict
  rw [List.any_eq_false]
  rw [List.find?_eq_none] at h
  exact h

theorem get_or_create_found (name sub_type : String) (is_serialized : Bool) (details : String)
    (db : DB) (t : ItemType)
    (hfind : db.item_types.find? (fun u => u.name == name && u.sub_type == sub_type) = some t)
    (hser : t.is_serialized = is_serialized) :
    ItemTypeRepository.get_or_create name sub_type is_serialized details db = (.ok t, db) := by
  unfold ItemTypeRepository.get_or_create
  rw [hfind]
  dsimp only
  rw [if_neg (by simp [hser])]
  rfl

theorem get_or_create_new (name sub_type : String) (is_serialized : Bool) (details : String)
    (db : DB)
    (hfind : db.item_types.find? (fun u => u.name == name && u.sub_type == sub_type) = none) :
    ItemTypeRepository.get_or_create name sub_type is_serialized details db
      = (.ok { id := db.next_type_id, name := name, sub_type := sub_type,
               is_serialized := is_serialized, details := details },
         { db with
             item_types := db.item_types ++
               [{ id := db.next_type_id, name := name, sub_type := sub_type,
                  is_serialized := is_serialized, details := details }],
             next_type_id := db.next_type_id + 1 }) := by
  have hnc := nameSubtypeConflict_of_find_none hfind
  unfold ItemTypeRepository.get_or_create flushInsertItemType
  rw [hfind]
  dsimp only
  rw [if_neg (by simp [hnc])]
  rfl

/-- C9: get_or_create called twice with identical arguments returns the
same ItemType both times (in particular the same id) and the second call
leaves the committed database entirely unchanged: no duplicate row is
created and the stored details are not overwritten. -/
theorem get_or_create_round_trip (name sub_type : String) (is_serialized : Bool)
    (details : String) (db : DB) (t : ItemType)
    (h1 : (ItemTypeRepository.get_or_create name sub_type is_serialized details db).1 = .ok t) :
    ItemTypeRepository.get_or_create name sub_type is_serialized details
        (ItemTypeRepository.get_or_create name sub_type is_serialized details db).2
      = (.ok t, (ItemTypeRepository.get_or_create name sub_type is_serialized details db).2) := by
  cases hfind : db.item_types.find? (fun u => u.name == name && u.sub_type == sub_type) with
  | some u =>
    have hser : u.is_serialized = is_serialized := by
      by_contra hne
      unfold ItemTypeRepository.get_or_create at h1
      rw [hfind] at h1
      dsimp only at h1
      rw [if_pos hne] at h1
      simp [runSession] at h1
    have hfc := get_or_create_found name sub_type is_serialized details db u hfind hser
    have htt : u = t := by
      rw [hfc] at h1
      exact Except.ok.inj h1
    subst htt
    rw [hfc]
    exact get_or_create_found name sub_type is_serialized details db u hfind hser
  | none =>
    have hnew := get_or_create_new name sub_type is_serialized details db hfind
    rw [hnew] at h1 ⊢
    dsimp only at h1 ⊢
    have htt := Except.ok.inj h1
    rw [← htt]
    apply get_or_create_found
    · rw [List.find?_append, hfind]
      simp
    · rfl

/-- Witness for C9: creating the new type "Printer" in the sample
database, the repeated identical call returns the same row and leaves the
database of the first call unchanged. -/
theorem get_or_create_round_trip_witness :
    ItemTypeRepository.get_or_create "Printer" "" false "x"
        (ItemTypeRepository.get_or_create "Printer" "" false "x" sampleDb).2
      = (.ok { id := 3, name := "Printer", sub_type := "", is_serialized := false, details := "x" },
         (ItemTypeRepository.get_or_create "Printer" "" false "x" sampleDb).2) :=
  get_or_create_round_trip "Printer" "" false "x" sampleDb
    { id := 3, name := "Printer", sub_type := "", is_serialized := false, details := "x" }
    rfl

theorem flushInsertItem_ok (db : DB) (it : Item)
    (hc : checkSerialOrQuantity it = true)
    (hs : serialConflict db.items it.serial_number = false) :
    flushInsertItem db it
      = .ok { db with items := db.items ++ [it], next_item_id := db.next_item_id + 1 } := by
  unfold flushInsertItem
  rw [if_neg (by simp [hc]), if_neg (by simp [hs])]

/-- C5: create_serialized, on a serialized ItemType with N existing items
and a fresh non-empty serial number, inserts one new quantity-1 Item
carrying the serial number and records exactly one ADD Transaction with
quantity_change 1, quantity_before N and quantity_after N+1; the notes
are the default initial-inventory string when N = 0 regardless of caller
input, and the caller-supplied notes string otherwise. -/
theorem create_serialized_group_audit (item_type_id : Nat)
    (serial_number location condition notes : String) (db : DB) (ty : ItemType)
    (hsn : serial_number ≠ "")
    (hfind : db.item_types.find? (fun u => u.id == item_type_id) = some ty)
    (hser : ty.is_serialized = true)
    (hfresh : serialConflict db.items (some serial_number) = false) :
    ItemRepository.create_serialized item_type_id serial_number location condition notes db
      = (.ok { id := db.next_item_id
               item_type_id := item_type_id
               quantity := 1
               serial_number := some serial_number
               location := location
               condition := condition },
         { db with
             items := db.items ++
               [{ id := db.next_item_id
                  item_type_id := item_type_id
                  quantity := 1
                  serial_number := some serial_number
                  location := location
                  condition := condition }]
             transactions := db.transactions ++
               [{ id := db.next_trans_id
                  item_type_id := item_type_id
                  transaction_type := .ADD
                  quantity_change := 1
                  quantity_before :=
                    ((db.items.filter (fun i => i.item_type_id == item_type_id)).length : Int)
                  quantity_after :=
                    ((db.items.filter (fun i => i.item_type_id == item_type_id)).length : Int) + 1
                  serial_number := some serial_number
                  notes := if (db.items.filter (fun i => i.item_type_id == item_type_id)).length = 0
                           then trInitial else notes }]
             next_item_id := db.next_item_id + 1
             next_trans_id := db.next_trans_id + 1 }) := by
  unfold ItemRepository.create_serialized
  rw [if_neg hsn, hfind]
  dsimp only
  rw [if_neg (by simp [hser])]
  rw [flushInsertItem_ok db
    { id := db.next_item_id, item_type_id := item_type_id, quantity := 1,
      serial_number := some serial_number, location := location, condition := condition }
    rfl hfresh]
  rfl

/-- Witness for C5 on the sample database: adding serial "SN-002" to the
serialized type 1 (one existing unit, so N = 1) inserts the quantity-1
row and records the ADD transaction for the group transition 1 → 2 with
the caller notes. -/
theorem create_serialized_group_audit_witness :
    ItemRepository.create_serialized 1 "SN-002" "" "" "n2" sampleDb
      = (.ok { id := sampleDb.next_item_id
               item_type_id := 1
               quantity := 1
               serial_number := some "SN-002"
               location := ""
               condition := "" },
         { sampleDb with
             items := sampleDb.items ++
               [{ id := sampleDb.next_item_id
                  item_type_id := 1
                  quantity := 1
                  serial_number := some "SN-002"
                  location := ""
                  condition := "" }]
             transactions := sampleDb.transactions ++
               [{ id := sampleDb.next_trans_id
                  item_type_id := 1
                  transaction_type := .ADD
                  quantity_change := 1
                  quantity_before :=
                    ((sampleDb.items.filter (fun i => i.item_type_id == 1)).length : Int)
                  quantity_after :=
                    ((sampleDb.items.filter (fun i => i.item_type_id == 1)).length : Int) + 1
                  serial_number := some "SN-002"
                  notes := if (sampleDb.items.filter (fun i => i.item_type_id == 1)).length = 0
                           then trInitial else "n2" }]
             next_item_id := sampleDb.next_item_id + 1
             next_trans_id := sampleDb.next_trans_id + 1 }) :=
  create_serialized_group_audit 1 "SN-002" "" "" "n2" sampleDb
    { id := 1, name := "Laptop", sub_type := "", is_serialized := true, details := "" }
    (by decide) (by decide) rfl (by decide)

theorem flushUpdateItem_ok_shape {db : DB} {it : Item} {db1 : DB}
    (hf : flushUpdateItem db it = .ok db1) :
    db1 = { db with items := db.items.map (fun j => if j.id = it.id then it else j) } := by
  unfold flushUpdateItem at hf
  split at hf
  · cases hf
  · split at hf
    · cases hf
    · exact (Except.ok.inj hf).symm

theorem flushUpdateItem_error_storage {db : DB} {it : Item} {e : RepoErr}
    (hf : flushUpdateItem db it = .error e) : ∃ msg, e = .storage msg := by
  unfold flushUpdateItem at hf
  split at hf
  · exact ⟨_, (Except.error.inj hf).symm⟩
  · split at hf
    · exact ⟨_, (Except.error.inj hf).symm⟩
    · cases hf

theorem edit_item_ok_spec (item_id item_type_id : Nat) (quantity : Int)
    (serial_number location condition edit_reason : String) (db : DB) (item1 : Item)
    (hok : (ItemRepository.edit_item item_id item_type_id quantity serial_number
              location condition edit_reason db).1 = .ok (some item1)) :
    ∃ item0 db1,
      db.items.find? (fun i => i.id == item_id) = some item0
      ∧ flushUpdateItem db
          (ItemRepository.editedRow item0 item_type_id quantity serial_number location condition)
          = .ok db1
      ∧ item1 = ItemRepository.editedRow item0 item_type_id quantity serial_number location condition
      ∧ (ItemRepository.edit_item item_id item_type_id quantity serial_number
           location condition edit_reason db).2
          = flushInsertTransaction db1
              { id := db1.next_trans_id
                item_type_id := item_type_id
                transaction_type := .EDIT
                quantity_change := |quantity - item0.quantity|
                quantity_before := item0.quantity
                quantity_after := quantity
                serial_number := none
                notes := edit_reason } := by
  unfold ItemRepository.edit_item at hok ⊢
  cases hfind : db.items.find? (fun i => i.id == item_id) with
  | none =>
    rw [hfind] at hok
    simp [runSession] at hok
  | some item0 =>
    rw [hfind] at hok
    dsimp only at hok ⊢
    cases hfl : flushUpdateItem db
        (ItemRepository.editedRow item0 item_type_id quantity serial_number location condition) with
    | error e =>
      rw [hfl] at hok
      simp [runSession] at hok
    | ok db1 =>
      rw [hfl] at hok
      simp only [runSession, Except.ok.injEq, Option.some.injEq] at hok
      exact ⟨item0, db1, rfl, hfl, hok.symm, rfl⟩

/-- C7: every successful edit_item call on an existing Item (the row
found for item_id) appends exactly one EDIT Transaction whose
quantity_change is the absolute value of the quantity delta (new quantity
minus old quantity), whose quantity_before/quantity_after are the old and
new row quantities, and whose notes are the edit_reason of the caller. -/
theorem edit_item_single_edit_transaction (item_id item_type_id : Nat) (quantity : Int)
    (serial_number location condition edit_reason : String) (db : DB) (item0 item1 : Item)
    (hfind : db.items.find? (fun i => i.id == item_id) = some item0)
    (hok : (ItemRepository.edit_item item_id item_type_id quantity serial_number
              location condition edit_reason db).1 = .ok (some item1)) :
    (ItemRepository.edit_item item_id item_type_id quantity serial_number
       location condition edit_reason db).2.transactions
      = db.transactions ++
        [{ id := db.next_trans_id
           item_type_id := item_type_id
           transaction_type := .EDIT
           quantity_change := |quantity - item0.quantity|
           quantity_before := item0.quantity
           quantity_after := quantity
           serial_number := none
           notes := edit_reason }] := by
  obtain ⟨item0x, db1, hfindx, hfl, hitem, heq⟩ :=
    edit_item_ok_spec item_id item_type_id quantity serial_number location condition
      edit_reason db item1 hok
  have hx : item0x = item0 := Option.some.inj (hfindx.symm.trans hfind)
  subst hx
  have hdb1 := flushUpdateItem_ok_shape hfl
  rw [heq, hdb1]
  rfl

/-- Witness for C7 on the sample database: editing item 1 (bulk, quantity
5) to quantity 7 appends one EDIT transaction with change |7-5| = 2,
before 5, after 7, and the edit reason as notes. -/
theorem edit_item_single_edit_transaction_witness :
    (ItemRepository.edit_item 1 2 7 "" "loc" "good" "fix" sampleDb).2.transactions
      = sampleDb.transactions ++
        [{ id := sampleDb.next_trans_id
           item_type_id := 2
           transaction_type := .EDIT
           quantity_change := |(7 : Int) - (5 : Int)|
           quantity_before := 5
           quantity_after := 7
           serial_number := none
           notes := "fix" }] :=
  edit_item_single_edit_transaction 1 2 7 "" "loc" "good" "fix" sampleDb
    { id := 1, item_type_id := 2, quantity := 5, serial_number := none,
      location := "", condition := "" }
    { id := 1, item_type_id := 2, quantity := 7, serial_number := none,
      location := "loc", condition := "good" }
    rfl rfl

/-- C10 counterexample: in the sample database the Item with id 1 exists
(a bulk row of quantity 5), yet edit_item with new quantity 0 does not
succeed and does not return the updated Item: the storage-level CHECK
constraint rejects the update at flush time, so the call raises a
StorageError. -/
theorem edit_item_counterexample :
    (sampleDb.items.find? (fun i => i.id == 1)).isSome = true ∧
    (ItemRepository.edit_item 1 2 0 "" "" "" "shrink" sampleDb).1
      = .error (.storage "CHECK constraint failed: check_serial_or_quantity") :=
  ⟨rfl, rfl⟩

/-- C10 (amended): edit_item performs no domain validation at the
repository layer: it never raises a ValidationError (in particular none
for a serialization-mode mismatch, a non-positive quantity, or an unknown
item_type_id), and it returns None exactly when no Item with the given
item_id exists; for an existing item_id it succeeds and returns the
updated Item whenever the new values pass the storage-level constraints
(the bulk/serialized CHECK constraint and serial uniqueness) — otherwise
the flush fails with a StorageError. -/
theorem edit_item_no_domain_validation (item_id item_type_id : Nat) (quantity : Int)
    (serial_number location condition edit_reason : String) (db : DB) :
    (∀ msg, (ItemRepository.edit_item item_id item_type_id quantity serial_number
               location condition edit_reason db).1 ≠ .error (.validation msg))
    ∧ ((ItemRepository.edit_item item_id item_type_id quantity serial_number
          location condition edit_reason db).1 = .ok none
        ↔ db.items.find? (fun i => i.id == item_id) = none)
    ∧ (∀ item0, db.items.find? (fun i => i.id == item_id) = some item0 →
        (∃ db1, flushUpdateItem db
           (ItemRepository.editedRow item0 item_type_id quantity serial_number location condition)
           = .ok db1) →
        (ItemRepository.edit_item item_id item_type_id quantity serial_number
           location condition edit_reason db).1
          = .ok (some (ItemRepository.editedRow item0 item_type_id quantity
                         serial_number location condition))) := by
  refine ⟨?_, ?_, ?_⟩
  · intro msg
    unfold ItemRepository.edit_item
    cases hfind : db.items.find? (fun i => i.id == item_id) with
    | none => simp [runSession]
    | some item0 =>
      dsimp only
      cases hfl : flushUpdateItem db
          (ItemRepository.editedRow item0 item_type_id quantity serial_number location condition) with
      | error e =>
        obtain ⟨m, rfl⟩ := flushUpdateItem_error_storage hfl
        simp [runSession]
      | ok db1 =>
        simp [runSession]
  · unfold ItemRepository.edit_item
    cases hfind : db.items.find? (fun i => i.id == item_id) with
    | none => simp [runSession]
    | some item0 =>
      dsimp only
      cases hfl : flushUpdateItem db
          (ItemRepository.editedRow item0 item_type_id quantity serial_number location condition) with
      | error e => simp [runSession]
      | ok db1 => simp [runSession]
  · intro item0 hfind hfl0
    obtain ⟨db1, hfl⟩ := hfl0
    unfold ItemRepository.edit_item
    rw [hfind]
    dsimp only
    rw [hfl]
    rfl

/-- Witness for C10 (amended) on the sample database: a successful edit
of the existing item 1 returns the updated row, and the concrete
validation-error shapes are refuted. -/
theorem edit_item_no_domain_validation_witness :
    ((ItemRepository.edit_item 1 2 7 "" "" "" "r" sampleDb).1
       = .ok (some { id := 1, item_type_id := 2, quantity := 7, serial_number := none,
                     location := "", condition := "" }))
    ∧ ((ItemRepository.edit_item 99 2 7 "" "" "" "r" sampleDb).1 = .ok none) :=
  ⟨(edit_item_no_domain_validation 1 2 7 "" "" "" "r" sampleDb).2.2
     { id := 1, item_type_id := 2, quantity := 5, serial_number := none,
       location := "", condition := "" }
     rfl ⟨_, rfl⟩,
   (edit_item_no_domain_validation 99 2 7 "" "" "" "r" sampleDb).2.1.mpr rfl⟩

theorem flushInsertItem_ok_shape {db : DB} {it : Item} {db1 : DB}
    (hf : flushInsertItem db it = .ok db1) :
    db1 = { db with items := db.items ++ [it], next_item_id := db.next_item_id + 1 } := by
  unfold flushInsertItem at hf
  split at hf
  · cases hf
  · split at hf
    · cases hf
    · exact (Except.ok.inj hf).symm

theorem create_tx_spec (item_type_id : Nat) (quantity : Int)
    (sn loc cond tn : Option String) (db : DB) (item : Item)
    (hok : (ItemRepository.create item_type_id quantity sn loc cond tn db).1 = .ok item) :
    0 < quantity ∧
    (ItemRepository.create item_type_id quantity sn loc cond tn db).2.transactions
      = db.transactions ++
        [{ id := db.next_trans_id
           item_type_id := item_type_id
           transaction_type := .ADD
           quantity_change := quantity
           quantity_before := 0
           quantity_after := quantity
           serial_number := strOrNone sn
           notes := pyStrOr tn trInitial }] := by
  unfold ItemRepository.create at hok ⊢
  cases hfind : db.item_types.find? (fun t => t.id == item_type_id) with
  | none =>
    rw [hfind] at hok
    simp [runSession] at hok
  | some ty =>
    rw [hfind] at hok
    dsimp only at hok ⊢
    split at hok
    · simp [runSession] at hok
    · split at hok
      · simp [runSession] at hok
      · split at hok
        · simp [runSession] at hok
        · split at hok
          · simp [runSession] at hok
          · rename_i h1 h2 h3 h4
            have hq : 0 < quantity := by
              by_cases hs : ty.is_serialized = true
              · by_cases hqq : quantity = 1
                · omega
                · exact absurd ⟨hs, hqq⟩ h2
              · by_cases hql : quantity < 1
                · exact absurd ⟨hs, hql⟩ h4
                · omega
            refine ⟨hq, ?_⟩
            rw [if_neg h1, if_neg h2, if_neg h3, if_neg h4]
            cases hfl : flushInsertItem db
                { id := db.next_item_id, item_type_id := item_type_id, quantity := quantity,
                  serial_number := strOrNone sn, location := strOrEmpty loc,
                  condition := strOrEmpty cond } with
            | error e =>
              rw [hfl] at hok
              simp [runSession] at hok
            | ok db1 =>
              dsimp only
              rw [if_pos hq]
              rw [flushInsertItem_ok_shape hfl]
              rfl

theorem add_quantity_tx_spec (item_id : Nat) (quantity : Int) (notes : Option String)
    (db : DB) (item0 item1 : Item)
    (hfind : db.items.find? (fun i => i.id == item_id) = some item0)
    (hok : (ItemRepository.add_quantity item_id quantity notes db).1 = .ok (some item1)) :
    (ItemRepository.add_quantity item_id quantity notes db).2.transactions
      = db.transactions ++
        [{ id := db.next_trans_id
           item_type_id := item0.item_type_id
           transaction_type := .ADD
           quantity_change := quantity
           quantity_before := item0.quantity
           quantity_after := item0.quantity + quantity
           serial_number := none
           notes := pyStrOr notes "" }] := by
  unfold ItemRepository.add_quantity at hok ⊢
  by_cases hq : quantity ≤ 0
  · rw [if_pos hq] at hok
    simp [runSession] at hok
  · rw [if_neg hq] at hok ⊢
    rw [hfind] at hok ⊢
    dsimp only at hok ⊢
    cases hfl : flushUpdateItem db { item0 with quantity := item0.quantity + quantity } with
    | error e =>
      rw [hfl] at hok
      simp [runSession] at hok
    | ok db1 =>
      rw [flushUpdateItem_ok_shape hfl]
      rfl

theorem remove_quantity_tx_spec (item_id : Nat) (quantity : Int) (notes : Option String)
    (db : DB) (item0 item1 : Item)
    (hfind : db.items.find? (fun i => i.id == item_id) = some item0)
    (hok : (ItemRepository.remove_quantity item_id quantity notes db).1 = .ok (some item1)) :
    (ItemRepository.remove_quantity item_id quantity notes db).2.transactions
      = db.transactions ++
        [{ id := db.next_trans_id
           item_type_id := item0.item_type_id
           transaction_type := .REMOVE
           quantity_change := quantity
           quantity_before := item0.quantity
           quantity_after := item0.quantity - quantity
           serial_number := none
           notes := pyStrOr notes "" }] := by
  unfold ItemRepository.remove_quantity at hok ⊢
  by_cases hq : quantity ≤ 0
  · rw [if_pos hq] at hok
    simp [runSession] at hok
  · rw [if_neg hq] at hok ⊢
    rw [hfind] at hok ⊢
    dsimp only at hok ⊢
    by_cases hlt : item0.quantity < quantity
    · rw [if_pos hlt] at hok
      simp [runSession] at hok
    · rw [if_neg hlt] at hok ⊢
      cases hfl : flushUpdateItem db { item0 with quantity := item0.quantity - quantity } with
      | error e =>
        rw [hfl] at hok
        simp [runSession] at hok
      | ok db1 =>
        rw [flushUpdateItem_ok_shape hfl]
        rfl

theorem edit_item_tx_spec (item_id item_type_id : Nat) (quantity : Int)
    (serial_number location condition edit_reason : String) (db : DB) (item0 item1 : Item)
    (hfind : db.items.find? (fun i => i.id == item_id) = some item0)
    (hok : (ItemRepository.edit_item item_id item_type_id quantity serial_number
              location condition edit_reason db).1 = .ok (some item1)) :
    (ItemRepository.edit_item item_id item_type_id quantity serial_number
       location condition edit_reason db).2.transactions
      = db.transactions ++
        [{ id := db.next_trans_id
           item_type_id := item_type_id
           transaction_type := .EDIT
           quantity_change := |quantity - item0.quantity|
           quantity_before := item0.quantity
           quantity_after := quantity
           serial_number := none
           notes := edit_reason }] := by
  obtain ⟨item0x, db1, hfindx, hfl, hitem, heq⟩ :=
    edit_item_ok_spec item_id item_type_id quantity serial_number location condition
      edit_reason db item1 hok
  have hx : item0x = item0 := Option.some.inj (hfindx.symm.trans hfind)
  subst hx
  have hdb1 := flushUpdateItem_ok_shape hfl
  rw [heq, hdb1]
  rfl

/-- C4 counterexample: in the sample database the bulk type 2 has two
rows (quantities 5 and 3), so its aggregate quantity before the mutation
is 8 and after is 10; yet the successful add_quantity of 2 on row 1
writes its Transaction with quantity_before = 5 and quantity_after = 7 —
the quantities of the row itself, not the aggregate the claim requires (5 = 8
decides to false). -/
theorem transaction_aggregate_counterexample :
    (ItemRepository.add_quantity 1 2 none sampleDb).1
      = .ok (some { id := 1, item_type_id := 2, quantity := 7, serial_number := none,
                    location := "", condition := "" })
    ∧ (ItemRepository.add_quantity 1 2 none sampleDb).2.transactions
      = [{ id := 1, item_type_id := 2, transaction_type := .ADD, quantity_change := 2,
           quantity_before := 5, quantity_after := 7, serial_number := none, notes := "" }]
    ∧ totalQuantity sampleDb 2 = 8
    ∧ decide ((5 : Int) = 8) = false :=
  ⟨rfl, rfl, rfl, rfl⟩

/-- C4 (amended): every Transaction written by a successful create,
add_quantity, remove_quantity or edit_item records the mutated row own
quantity before and after the mutation (create records 0 → quantity for
the newly inserted row), not the aggregate quantity of the ItemType of
the Transaction; the two coincide only when the row is the sole Item of its
type.  (Only create_serialized records the type-level aggregate, the
group count.) -/
theorem transaction_row_quantities :
    (∀ ti q sn loc cond tn db item,
       (ItemRepository.create ti q sn loc cond tn db).1 = .ok item →
       (ItemRepository.create ti q sn loc cond tn db).2.transactions
         = db.transactions ++
           [{ id := db.next_trans_id
              item_type_id := ti
              transaction_type := .ADD
              quantity_change := q
              quantity_before := 0
              quantity_after := q
              serial_number := strOrNone sn
              notes := pyStrOr tn trInitial }]) ∧
    (∀ iid q notes db item0 item1,
       db.items.find? (fun i => i.id == iid) = some item0 →
       (ItemRepository.add_quantity iid q notes db).1 = .ok (some item1) →
       (ItemRepository.add_quantity iid q notes db).2.transactions
         = db.transactions ++
           [{ id := db.next_trans_id
              item_type_id := item0.item_type_id
              transaction_type := .ADD
              quantity_change := q
              quantity_before := item0.quantity
              quantity_after := item0.quantity + q
              serial_number := none
              notes := pyStrOr notes "" }]) ∧
    (∀ iid q notes db item0 item1,
       db.items.find? (fun i => i.id == iid) = some item0 →
       (ItemRepository.remove_quantity iid q notes db).1 = .ok (some item1) →
       (ItemRepository.remove_quantity iid q notes db).2.transactions
         = db.transactions ++
           [{ id := db.next_trans_id
              item_type_id := item0.item_type_id
              transaction_type := .REMOVE
              quantity_change := q
              quantity_before := item0.quantity
              quantity_after := item0.quantity - q
              serial_number := none
              notes := pyStrOr notes "" }]) ∧
    (∀ iid ti q sn loc cond reason db item0 item1,
       db.items.find? (fun i => i.id == iid) = some item0 →
       (ItemRepository.edit_item iid ti q sn loc cond reason db).1 = .ok (some item1) →
       (ItemRepository.edit_item iid ti q sn loc cond reason db).2.transactions
         = db.transactions ++
           [{ id := db.next_trans_id
              item_type_id := ti
              transaction_type := .EDIT
              quantity_change := |q - item0.quantity|
              quantity_before := item0.quantity
              quantity_after := q
              serial_number := none
              notes := reason }]) :=
  ⟨fun _ _ _ _ _ _ _ _ hok => (create_tx_spec _ _ _ _ _ _ _ _ hok).2,
   fun _ _ _ _ _ _ hfind hok => add_quantity_tx_spec _ _ _ _ _ _ hfind hok,
   fun _ _ _ _ _ _ hfind hok => remove_quantity_tx_spec _ _ _ _ _ _ hfind hok,
   fun _ _ _ _ _ _ _ _ _ _ hfind hok =>
     edit_item_tx_spec _ _ _ _ _ _ _ _ _ _ hfind hok⟩

/-- Witness for C4 (amended): the four conjuncts instantiated on the
sample database — in each case the Transaction carries the before/after
quantities of the mutated row itself. -/
theorem transaction_row_quantities_witness :
    ((ItemRepository.create 2 5 none none none none sampleDb).2.transactions
       = sampleDb.transactions ++
         [{ id := sampleDb.next_trans_id
            item_type_id := 2
            transaction_type := .ADD
            quantity_change := 5
            quantity_before := 0
            quantity_after := 5
            serial_number := strOrNone none
            notes := pyStrOr none trInitial }])
    ∧ ((ItemRepository.add_quantity 2 4 none sampleDb).2.transactions
       = sampleDb.transactions ++
         [{ id := sampleDb.next_trans_id
            item_type_id := 2
            transaction_type := .ADD
            quantity_change := 4
            quantity_before := 3
            quantity_after := 3 + 4
            serial_number := none
            notes := pyStrOr none "" }])
    ∧ ((ItemRepository.remove_quantity 1 2 none sampleDb).2.transactions
       = sampleDb.transactions ++
         [{ id := sampleDb.next_trans_id
            item_type_id := 2
            transaction_type := .REMOVE
            quantity_change := 2
            quantity_before := 5
            quantity_after := 5 - 2
            serial_number := none
            notes := pyStrOr none "" }])
    ∧ ((ItemRepository.edit_item 1 2 9 "" "" "" "why" sampleDb).2.transactions
       = sampleDb.transactions ++
         [{ id := sampleDb.next_trans_id
            item_type_id := 2
            transaction_type := .EDIT
            quantity_change := |(9 : Int) - 5|
            quantity_before := 5
            quantity_after := 9
            serial_number := none
            notes := "why" }]) :=
  ⟨transaction_row_quantities.1 2 5 none none none none sampleDb
     { id := 4, item_type_id := 2, quantity := 5, serial_number := none,
       location := "", condition := "" } rfl,
   transaction_row_quantities.2.1 2 4 none sampleDb
     { id := 2, item_type_id := 2, quantity := 3, serial_number := none,
       location := "", condition := "" }
     { id := 2, item_type_id := 2, quantity := 7, serial_number := none,
       location := "", condition := "" } rfl rfl,
   transaction_row_quantities.2.2.1 1 2 none sampleDb
     { id := 1, item_type_id := 2, quantity := 5, serial_number := none,
       location := "", condition := "" }
     { id := 1, item_type_id := 2, quantity := 3, serial_number := none,
       location := "", condition := "" } rfl rfl,
   transaction_row_quantities.2.2.2 1 2 9 "" "" "" "why" sampleDb
     { id := 1, item_type_id := 2, quantity := 5, serial_number := none,
       location := "", condition := "" }
     { id := 1, item_type_id := 2, quantity := 9, serial_number := none,
       location := "", condition := "" } rfl rfl⟩

theorem serialMatches_nil (i : Item) : ItemRepository.serialMatches [] i = false := by
  unfold ItemRepository.serialMatches
  cases i.serial_number <;> rfl

theorem filter_serialMatches_nil (l : List Item) :
    l.filter (ItemRepository.serialMatches []) = [] :=
  List.filter_eq_nil_iff.mpr (fun i _ => by simp [serialMatches_nil])

theorem foldl_removeTransFor_transactions (notes : String) (l : List Item) (db : DB) :
    (l.foldl (ItemRepository.removeTransFor notes) db).transactions
      = db.transactions ++ expectedRemoveTransactions notes l db.next_trans_id := by
  induction l generalizing db with
  | nil => simp [expectedRemoveTransactions]
  | cons i l ih =>
    rw [List.foldl_cons, ih]
    simp [ItemRepository.removeTransFor, flushInsertTransaction, expectedRemoveTransactions]

/-- C8: delete_by_serial_numbers writes, for each Item whose
serial_number is in the given list, one REMOVE Transaction with
quantity_change 1, quantity_before 1, quantity_after 0, carrying that
serial number of that item and the caller notes; all audit rows are flushed
in the audit phase, during which every Item row is still present, and
only then does the delete phase remove the matched rows via a set-based
delete; the call returns the number of matched (deleted) items, 0 for an
empty input list. -/
theorem delete_by_serial_numbers_spec (serial_numbers : List String) (notes : String) (db : DB) :
    ItemRepository.delete_by_serial_numbers serial_numbers notes db
      = (.ok (db.items.filter (ItemRepository.serialMatches serial_numbers)).length,
         ItemRepository.deleteStep serial_numbers
           (ItemRepository.auditStep serial_numbers notes db))
    ∧ (ItemRepository.auditStep serial_numbers notes db).items = db.items
    ∧ (ItemRepository.auditStep serial_numbers notes db).transactions
        = db.transactions ++
          expectedRemoveTransactions notes
            (db.items.filter (ItemRepository.serialMatches serial_numbers)) db.next_trans_id
    ∧ (ItemRepository.deleteStep serial_numbers
         (ItemRepository.auditStep serial_numbers notes db)).items
        = db.items.filter (fun i => ¬ ItemRepository.serialMatches serial_numbers i)
    ∧ ItemRepository.delete_by_serial_numbers [] notes db = (.ok 0, db) := by
  have haud_items : (ItemRepository.auditStep serial_numbers notes db).items = db.items := by
    unfold ItemRepository.auditStep
    exact foldl_removeTransFor_items notes _ db
  refine ⟨?_, haud_items, ?_, ?_, rfl⟩
  · unfold ItemRepository.delete_by_serial_numbers
    cases serial_numbers with
    | nil =>
      have h1 : ItemRepository.auditStep [] notes db = db := by
        unfold ItemRepository.auditStep
        rw [filter_serialMatches_nil]
        rfl
      have h2 : db.items.filter (fun i => ¬ ItemRepository.serialMatches [] i) = db.items :=
        List.filter_eq_self.mpr (fun a _ => by simp [serialMatches_nil])
      rw [h1]
      unfold ItemRepository.deleteStep
      rw [h2, filter_serialMatches_nil]
      rfl
    | cons s rest => rfl
  · unfold ItemRepository.auditStep
    exact foldl_removeTransFor_transactions notes _ db
  · unfold ItemRepository.deleteStep
    dsimp only
    rw [haud_items]

end AuditMagic
